import Mathlib

/-!
Verification development for a wgpu-based pentagon renderer (`src/lib.rs`).

The program renders a textured pentagon driven by a camera.  We shallowly
embed the parts of `lib.rs` that the specification talks about:

* the camera model (`Camera`, `OPENGL_TO_WGPU_MATRIX`,
  `build_view_projection_matrix`, `CameraUniform`), with `f32` idealised as
  the real numbers and the cgmath `look_at_rh` / `perspective` translated from
  the cgmath sources;
* the mutable application `State` (`resize`, `update`, `render`) as explicit
  state-passing functions that also return a trace of GPU-side effects
  (surface configuration, buffer writes, render-pass commands, submit,
  present);
* the redraw-event error handling of `run` (`handleRenderResult`);
* the static mesh constants `VERTICES` and `INDICES`.

The `camera_controller` module is declared in `lib.rs` but its source file is
not part of the repository snapshot; the controller state and
`update_camera` are therefore modelled from the specification text (see the
doc comments on `CameraController` and `CameraController.update_camera`).
-/

noncomputable section

/-- A 3-component vector of reals, modelling cgmath `Vector3<f32>` and
`Point3<f32>` with `f32` idealised as `ℝ`. -/
@[ext] structure Vec3 where
  x : ℝ
  y : ℝ
  z : ℝ

/-- Componentwise sum, cgmath `Add` for vectors/points. -/
def Vec3.add (a b : Vec3) : Vec3 := ⟨a.x + b.x, a.y + b.y, a.z + b.z⟩

/-- Componentwise difference, cgmath `Sub` (also `Point3 - Point3`,
yielding the displacement vector). -/
def Vec3.sub (a b : Vec3) : Vec3 := ⟨a.x - b.x, a.y - b.y, a.z - b.z⟩

/-- Scalar multiple, cgmath `Vector3 * S`. -/
def Vec3.smul (c : ℝ) (v : Vec3) : Vec3 := ⟨c * v.x, c * v.y, c * v.z⟩

/-- Dot product, cgmath `InnerSpace::dot`. -/
def Vec3.dot (a b : Vec3) : ℝ := a.x * b.x + a.y * b.y + a.z * b.z

/-- Cross product, cgmath `Vector3::cross`. -/
def Vec3.cross (a b : Vec3) : Vec3 :=
  ⟨a.y * b.z - a.z * b.y, a.z * b.x - a.x * b.z, a.x * b.y - a.y * b.x⟩

/-- Euclidean magnitude, cgmath `InnerSpace::magnitude` (`sqrt (v ⬝ v)`). -/
def Vec3.magnitude (v : Vec3) : ℝ := Real.sqrt (v.dot v)

/-- cgmath `InnerSpace::normalize`: `v * (1 / magnitude v)`.  (For the zero
vector, floats give NaN; in the real-number idealisation `1/0 = 0`, and
every use below is guarded away from that case.) -/
def Vec3.normalize (v : Vec3) : Vec3 := Vec3.smul (1 / v.magnitude) v

/-- Euclidean distance between two points (magnitude of the displacement). -/
def Vec3.dist (a b : Vec3) : ℝ := (Vec3.sub a b).magnitude

/-- 4×4 real matrix, modelling cgmath `Matrix4<f32>` (with the cgmath
matrix-matrix `*` being ordinary matrix multiplication and cgmath
`Matrix4::identity()` the identity matrix). -/
abbrev Matrix4 : Type := Matrix (Fin 4) (Fin 4) ℝ

/-- cgmath `Matrix4::new` takes its 16 arguments in column-major order
(`cXrY` = column X, row Y); we store the usual row/column indexed matrix,
so entry `(r, c)` of the result is argument `cCrR`. -/
def mat4 (c0r0 c0r1 c0r2 c0r3 c1r0 c1r1 c1r2 c1r3
    c2r0 c2r1 c2r2 c2r3 c3r0 c3r1 c3r2 c3r3 : ℝ) : Matrix4 :=
  Matrix.of
    ![![c0r0, c1r0, c2r0, c3r0],
      ![c0r1, c1r1, c2r1, c3r1],
      ![c0r2, c1r2, c2r2, c3r2],
      ![c0r3, c1r3, c2r3, c3r3]]

/-- Source `lib.rs` lines 440–446: the fixed depth-correction constant.

```text
pub const OPENGL_TO_WGPU_MATRIX: cgmath::Matrix4<f32> = cgmath::Matrix4::new(
    1.0, 0.0, 0.0, 0.0,
    0.0, 1.0, 0.0, 0.0,
    0.0, 0.0, 0.5, 0.0,
    0.0, 0.0, 0.5, 1.0,
);
``` -/
def OPENGL_TO_WGPU_MATRIX : Matrix4 :=
  mat4 1 0 0 0  0 1 0 0  0 0 0.5 0  0 0 0.5 1

/-- cgmath `Matrix4::look_at_rh(eye, center, up)` (translated from the
cgmath sources):

```text
let f = (center - eye).normalize();
let s = f.cross(up).normalize();
let u = s.cross(f);
Matrix4::new(
    s.x, u.x, -f.x, 0,
    s.y, u.y, -f.y, 0,
    s.z, u.z, -f.z, 0,
    -eye.dot(s), -eye.dot(u), eye.dot(f), 1)
``` -/
def look_at_rh (eye center up : Vec3) : Matrix4 :=
  let f := (Vec3.sub center eye).normalize
  let s := (f.cross up).normalize
  let u := s.cross f
  mat4 s.x u.x (-f.x) 0  s.y u.y (-f.y) 0  s.z u.z (-f.z) 0
    (-(eye.dot s)) (-(eye.dot u)) (eye.dot f) 1

/-- Degrees to radians, cgmath `Rad::from(Deg(d)) = d * π / 180`. -/
def radiansOfDeg (d : ℝ) : ℝ := d * (Real.pi / 180)

/-- cgmath `perspective(Deg(fovy), aspect, near, far)` (translated from the
cgmath sources, `From<PerspectiveFov> for Matrix4`): with
`f = cot(fovy/2)` (fovy in radians),

```text
c0r0 = f / aspect,  c1r1 = f,
c2r2 = (far + near) / (near - far),  c2r3 = -1,
c3r2 = (2 * far * near) / (near - far),  all other entries 0.
``` -/
def perspective (fovyDeg aspect near far : ℝ) : Matrix4 :=
  let f := 1 / Real.tan (radiansOfDeg fovyDeg / 2)
  mat4 (f / aspect) 0 0 0  0 f 0 0
    0 0 ((far + near) / (near - far)) (-1)
    0 0 ((2 * far * near) / (near - far)) 0

/-- Source `lib.rs` lines 448–456: the camera parameters. -/
structure Camera where
  eye : Vec3
  target : Vec3
  up : Vec3
  aspect : ℝ
  fovy : ℝ
  znear : ℝ
  zfar : ℝ

/-- Source `lib.rs` lines 458–467, `Camera::build_view_projection_matrix`:

```text
let view = cgmath::Matrix4::look_at_rh(self.eye, self.target, self.up);
let proj = cgmath::perspective(cgmath::Deg(self.fovy), self.aspect, self.znear, self.zfar);
return OPENGL_TO_WGPU_MATRIX * proj * view;
``` -/
def Camera.build_view_projection_matrix (c : Camera) : Matrix4 :=
  let view := look_at_rh c.eye c.target c.up
  let proj := perspective c.fovy c.aspect c.znear c.zfar
  OPENGL_TO_WGPU_MATRIX * proj * view

/-- Source `lib.rs` lines 470–475: the GPU-side mirror of the view-projection
matrix (a 4×4 `f32` array; we keep it as the matrix itself). -/
structure CameraUniform where
  view_proj : Matrix4

/-- Source `lib.rs` lines 478–483, `CameraUniform::new`: the identity matrix. -/
def CameraUniform.new : CameraUniform := ⟨(1 : Matrix4)⟩

/-- Source `lib.rs` lines 485–487, `CameraUniform::update_view_proj`. -/
def CameraUniform.update_view_proj (_u : CameraUniform) (camera : Camera) :
    CameraUniform :=
  ⟨camera.build_view_projection_matrix⟩

/-- Model of `winit::dpi::PhysicalSize<u32>` (widths/heights fit in `u32`; all values
arising here stay far below `2^32`, so we use `Nat`). -/
structure PhysicalSize where
  width : Nat
  height : Nat
deriving DecidableEq

/-- The surface texture format.  `State::new` picks
`surface.get_preferred_format(&adapter)`; the program never inspects it
beyond passing it along, so it is one opaque token. -/
inductive TextureFormat
  | preferred
deriving DecidableEq

/-- Model of `wgpu::PresentMode`; the program only ever uses `Fifo`. -/
inductive PresentMode
  | Fifo
deriving DecidableEq

/-- Model of `wgpu::TextureUsages`; the program only ever uses `RENDER_ATTACHMENT`. -/
inductive TextureUsages
  | RENDER_ATTACHMENT
deriving DecidableEq

/-- Model of `wgpu::SurfaceConfiguration` as built in `State::new` (lines 149–155):
usage, format, width, height, present mode. -/
structure SurfaceConfiguration where
  usage : TextureUsages
  format : TextureFormat
  width : Nat
  height : Nat
  present_mode : PresentMode
deriving DecidableEq

/-- Modelled from the spec: the `camera_controller` module is declared in
`lib.rs` (line 12) but its source file is not in the repository snapshot.
Per §4.4 the controller holds a configured speed constant and one boolean
per cardinal movement intent (forward/backward/strafe-left/strafe-right,
WASD-style press state). -/
structure CameraController where
  speed : ℝ
  is_forward_pressed : Bool
  is_backward_pressed : Bool
  is_left_pressed : Bool
  is_right_pressed : Bool

/-- Modelled from the spec: `CameraController::update_camera` (module source
missing from the snapshot), following §4.4 word for word.  Let
`forward = target - eye`, `forward_norm = normalize(forward)`,
`forward_mag = |forward|`.  If moving forward and `forward_mag > speed`,
move eye by `speed * forward_norm`; symmetric for backward (moving away
from the target needs no overshoot guard).  For strafing, let
`right = normalize(forward × up)`; recompute `forward` and `forward_mag`
after any forward/backward adjustment already applied in the same update,
then re-project the perturbed direction onto the sphere of radius
`forward_mag` around the target:
`eye = target - normalize(forward ± right * speed) * forward_mag`. -/
def CameraController.update_camera (ctrl : CameraController) (camera : Camera) :
    Camera :=
  let forward := Vec3.sub camera.target camera.eye
  let forward_norm := forward.normalize
  let forward_mag := forward.magnitude
  let eye1 :=
    if ctrl.is_forward_pressed ∧ forward_mag > ctrl.speed then
      Vec3.add camera.eye (Vec3.smul ctrl.speed forward_norm)
    else camera.eye
  let eye2 :=
    if ctrl.is_backward_pressed then
      Vec3.sub eye1 (Vec3.smul ctrl.speed forward_norm)
    else eye1
  let right := (forward.cross camera.up).normalize
  let forward2 := Vec3.sub camera.target eye2
  let forward_mag2 := forward2.magnitude
  let eye3 :=
    if ctrl.is_right_pressed then
      Vec3.sub camera.target
        (Vec3.smul forward_mag2
          (Vec3.add forward2 (Vec3.smul ctrl.speed right)).normalize)
    else eye2
  let eye4 :=
    if ctrl.is_left_pressed then
      Vec3.sub camera.target
        (Vec3.smul forward_mag2
          (Vec3.sub forward2 (Vec3.smul ctrl.speed right)).normalize)
    else eye3
  { camera with eye := eye4 }

/-- The GPU buffers owned by `State`; created once in `State::new` and
identified here by name. -/
inductive BufferId
  | camera
  | vertex
  | index
deriving DecidableEq

/-- The bind groups owned by `State`. -/
inductive BindGroupId
  | diffuse
  | camera
deriving DecidableEq

/-- Model of `wgpu::SurfaceError`: the variants `Surface::get_current_texture` can
return. -/
inductive SurfaceError
  | Lost
  | OutOfMemory
  | Outdated
  | Timeout
deriving DecidableEq

/-- GPU-side effects emitted by the state functions, in program order.
`State::new` would additionally emit buffer creations (`createBuffer`);
after construction the only buffer traffic is `writeBuffer`. -/
inductive Effect
  | configureSurface (config : SurfaceConfiguration)
  | createBuffer (buf : BufferId)
  | writeBuffer (buf : BufferId) (offset : Nat) (data : List ℝ)
  | createCommandEncoder
  | beginRenderPass (clear_r clear_g clear_b clear_a : ℝ)
  | setPipeline
  | setBindGroup (slot : Nat) (group : BindGroupId)
  | setVertexBuffer (slot : Nat) (buf : BufferId)
  | setIndexBuffer (buf : BufferId)
  | drawIndexed (firstIndex endIndex : Nat) (baseVertex : Int)
      (firstInstance endInstance : Nat)
  | submit
  | present
  | logError (e : SurfaceError)

/-- The mutable application state (`struct State`, lines 97–113), restricted
to the fields with model-level content.  The pure GPU handles (`device`,
`queue`, `surface`, the buffers, bind groups and the render pipeline) are
created once in `State::new` and never reassigned; they appear here only
through the effect trace. -/
structure State where
  camera : Camera
  camera_controller : CameraController
  camera_uniform : CameraUniform
  config : SurfaceConfiguration
  num_indices : Nat
  size : PhysicalSize

/-- Source `lib.rs` lines 323–330, `State::resize` (the operation the spec
names `reconfigure(new_size)`):

```text
if new_size.width > 0 && new_size.height > 0 {
  self.size = new_size;
  self.config.width = new_size.width;
  self.config.height = new_size.height;
  self.surface.configure(&self.device, &self.config);
}
```

Returns the new state together with the surface-configuration effects. -/
def State.resize (st : State) (new_size : PhysicalSize) :
    State × List Effect :=
  if 0 < new_size.width ∧ 0 < new_size.height then
    let st2 : State :=
      { st with
        size := new_size
        config := { st.config with
                    width := new_size.width, height := new_size.height } }
    (st2, [Effect.configureSurface st2.config])
  else (st, [])

/-- Flatten a 4×4 matrix to the 16 floats `bytemuck::cast_slice` uploads
(cgmath stores column-major, so column by column). -/
def matrixToFloats (m : Matrix4) : List ℝ :=
  [m 0 0, m 1 0, m 2 0, m 3 0,
   m 0 1, m 1 1, m 2 1, m 3 1,
   m 0 2, m 1 2, m 2 2, m 3 2,
   m 0 3, m 1 3, m 2 3, m 3 3]

/-- Source `lib.rs` lines 336–344, `State::update`:

```text
self.camera_controller.update_camera(&mut self.camera);
self.camera_uniform.update_view_proj(&self.camera);
self.queue.write_buffer(&self.camera_buffer, 0,
                        bytemuck::cast_slice(&[self.camera_uniform]));
``` -/
def State.update (st : State) : State × List Effect :=
  let camera := st.camera_controller.update_camera st.camera
  let uniform := st.camera_uniform.update_view_proj camera
  ({ st with camera := camera, camera_uniform := uniform },
   [Effect.writeBuffer BufferId.camera 0 (matrixToFloats uniform.view_proj)])

/-- Source `lib.rs` lines 346–390, `State::render`.  The outcome of
`self.surface.get_current_texture()` is supplied by the environment; `?`
returns its error immediately.  On success the function records one render
pass (clear to `(0.1, 0.1, 0.1, 1.0)`, pipeline, diffuse bind group at
slot 0, camera bind group at slot 1, vertex buffer at slot 0, index
buffer, one indexed draw `0..num_indices` with instances `0..1`), submits
the encoder and presents the frame. -/
def State.render (st : State) (acquired : Except SurfaceError Unit) :
    Except SurfaceError Unit × State × List Effect :=
  match acquired with
  | Except.error e => (Except.error e, st, [])
  | Except.ok _ =>
    (Except.ok (), st,
     [Effect.createCommandEncoder,
      Effect.beginRenderPass 0.1 0.1 0.1 1,
      Effect.setPipeline,
      Effect.setBindGroup 0 BindGroupId.diffuse,
      Effect.setBindGroup 1 BindGroupId.camera,
      Effect.setVertexBuffer 0 BufferId.vertex,
      Effect.setIndexBuffer BufferId.index,
      Effect.drawIndexed 0 st.num_indices 0 0 1,
      Effect.submit,
      Effect.present])

/-- Model of `winit::event_loop::ControlFlow` as the run loop uses it: keep polling,
or exit the loop. -/
inductive ControlFlow
  | Poll
  | ExitLoop
deriving DecidableEq

/-- Source `lib.rs` lines 79–87: the `Event::RedrawRequested` arm of `run`, acting
on the result of `state.render()`:

```text
match state.render() {
  Ok(_) => {}
  Err(wgpu::SurfaceError::Lost) => state.resize(state.size),
  Err(wgpu::SurfaceError::OutOfMemory) => *control_flow = ControlFlow::Exit,
  Err(e) => eprintln!("{:?}", e),
}
``` -/
def handleRenderResult (st : State) (r : Except SurfaceError Unit) :
    State × ControlFlow × List Effect :=
  match r with
  | Except.ok _ => (st, ControlFlow.Poll, [])
  | Except.error SurfaceError.Lost =>
    let p := st.resize st.size
    (p.1, ControlFlow.Poll, p.2)
  | Except.error SurfaceError.OutOfMemory => (st, ControlFlow.ExitLoop, [])
  | Except.error e => (st, ControlFlow.Poll, [Effect.logError e])

/-- Source `lib.rs` lines 393–398: a mesh vertex, a 3-component position and a
2-component texture coordinate. -/
structure Vertex where
  position : Fin 3 → ℝ
  tex_coords : Fin 2 → ℝ

/-- Source `lib.rs` lines 415–436: the five pentagon vertices. -/
def VERTICES : List Vertex :=
  [⟨![-0.0868241, 0.49240386, 0.0], ![0.4131759, 1.0 - 0.99240386]⟩,
   ⟨![-0.49513406, 0.06958647, 0.0], ![0.0048659444, 1.0 - 0.56958647]⟩,
   ⟨![-0.21918549, -0.44939706, 0.0], ![0.28081453, 1.0 - 0.05060294]⟩,
   ⟨![0.35966998, -0.3473291, 0.0], ![0.85967, 1.0 - 0.1526709]⟩,
   ⟨![0.44147372, 0.2347359, 0.0], ![0.9414737, 1.0 - 0.7347359]⟩]

/-- Source `lib.rs` line 438: `const INDICES: &[u16] = &[0, 1, 4, 1, 2, 4, 2, 3, 4]`
(all values below `2^16`, kept as `Nat`). -/
def INDICES : List Nat := [0, 1, 4, 1, 2, 4, 2, 3, 4]

/-- Source `lib.rs` line 259: `let num_indices = INDICES.len() as u32;` — the value
stored into `State.num_indices` by `State::new`. -/
def init_num_indices : Nat := INDICES.length

/-- Recognise the indexed-draw effect (used to state that a render pass
contains exactly one draw call). -/
def Effect.isDrawIndexed : Effect → Bool
  | Effect.drawIndexed _ _ _ _ _ => true
  | _ => false

/-- The camera `State::new` builds (lines 203–211), for an 800×600 window:
eye `(0,1,2)`, target the origin, up `+Y`, aspect `width/height`,
fovy 45°, znear 0.1, zfar 100. -/
def sampleCamera : Camera :=
  { eye := ⟨0, 1, 2⟩
    target := ⟨0, 0, 0⟩
    up := ⟨0, 1, 0⟩
    aspect := 800 / 600
    fovy := 45
    znear := 0.1
    zfar := 100 }

/-- A controller with the configured speed of the program (`CameraController::new(0.2)`,
line 158) and no key pressed. -/
def sampleController : CameraController := ⟨0.2, false, false, false, false⟩

/-- A concrete application state as `State::new` would leave it for an
800×600 window (used to instantiate the universally quantified theorems). -/
def sampleState : State :=
  { camera := sampleCamera
    camera_controller := sampleController
    camera_uniform := CameraUniform.new
    config := ⟨TextureUsages.RENDER_ATTACHMENT, TextureFormat.preferred,
               800, 600, PresentMode.Fifo⟩
    num_indices := init_num_indices
    size := ⟨800, 600⟩ }

/-- A controller with speed `1/5` (the `0.2` of the program) and only the
forward intent active. -/
def forwardController : CameraController := ⟨1 / 5, true, false, false, false⟩

/-- A camera one unit away from its target along `+X` (distance larger than
the speed `1/5`). -/
def forwardCamera : Camera :=
  { eye := ⟨0, 0, 0⟩
    target := ⟨1, 0, 0⟩
    up := ⟨0, 1, 0⟩
    aspect := 1
    fovy := 45
    znear := 0.1
    zfar := 100 }

/-- A camera only `1/10` away from its target — closer than the speed
`1/5`, so the forward guard `forward_mag > speed` blocks the move. -/
def nearCamera : Camera :=
  { eye := ⟨0, 0, 0⟩
    target := ⟨1 / 10, 0, 0⟩
    up := ⟨0, 1, 0⟩
    aspect := 1
    fovy := 45
    znear := 0.1
    zfar := 100 }

theorem Vec3.magnitude_nonneg (v : Vec3) : 0 ≤ v.magnitude :=
  Real.sqrt_nonneg _

theorem Vec3.magnitude_smul (c : ℝ) (v : Vec3) :
    (Vec3.smul c v).magnitude = |c| * v.magnitude := by
  unfold Vec3.magnitude Vec3.smul Vec3.dot
  have h : c * v.x * (c * v.x) + c * v.y * (c * v.y) + c * v.z * (c * v.z)
      = c ^ 2 * (v.x * v.x + v.y * v.y + v.z * v.z) := by ring
  rw [h, Real.sqrt_mul (sq_nonneg c), Real.sqrt_sq_eq_abs]

theorem Vec3.magnitude_sub_comm (a b : Vec3) :
    (Vec3.sub a b).magnitude = (Vec3.sub b a).magnitude := by
  unfold Vec3.magnitude Vec3.sub Vec3.dot
  congr 1
  ring

theorem Vec3.smul_comp (c d : ℝ) (v : Vec3) :
    Vec3.smul c (Vec3.smul d v) = Vec3.smul (c * d) v := by
  ext <;> simp [Vec3.smul] <;> ring

theorem Vec3.forward_step (e t : Vec3) (c : ℝ) :
    Vec3.sub (Vec3.add e (Vec3.smul c (Vec3.sub t e))) t
      = Vec3.smul (c - 1) (Vec3.sub t e) := by
  ext <;> simp [Vec3.sub, Vec3.add, Vec3.smul] <;> ring

/-- Unfolding of `State.resize` on a non-zero size. -/
theorem State.resize_pos_eq (st : State) (s : PhysicalSize)
    (h : 0 < s.width ∧ 0 < s.height) :
    st.resize s
      = ({ st with
           size := s
           config := { st.config with width := s.width, height := s.height } },
         [Effect.configureSurface
           { st.config with width := s.width, height := s.height }]) := by
  unfold State.resize
  rw [if_pos h]


/-- C1: on a `Lost` acquisition error the redraw handler performs exactly
one `reconfigure` (`State::resize`) call, with the current stored size, and
keeps the loop running; on `OutOfMemory` it ends the control loop; on any
other surface error it logs the error and keeps the loop running with the
state untouched. -/
theorem C1_redraw_error_handling (st : State) :
    handleRenderResult st (Except.error SurfaceError.Lost)
      = ((st.resize st.size).1, ControlFlow.Poll, (st.resize st.size).2)
    ∧ handleRenderResult st (Except.error SurfaceError.OutOfMemory)
      = (st, ControlFlow.ExitLoop, [])
    ∧ ∀ e : SurfaceError, e ≠ SurfaceError.Lost →
        e ≠ SurfaceError.OutOfMemory →
        handleRenderResult st (Except.error e)
          = (st, ControlFlow.Poll, [Effect.logError e]) := by
  refine ⟨rfl, rfl, ?_⟩
  intro e h1 h2
  cases e
  · exact absurd rfl h1
  · exact absurd rfl h2
  · rfl
  · rfl

/-- Witness for C1 at the concrete initial state and the `Outdated` error. -/
theorem C1_redraw_error_handling_witness :
    handleRenderResult sampleState (Except.error SurfaceError.Outdated)
      = (sampleState, ControlFlow.Poll,
         [Effect.logError SurfaceError.Outdated]) :=
  (C1_redraw_error_handling sampleState).2.2 SurfaceError.Outdated
    (by decide) (by decide)

/-- C2 counterexample: resizing the initial 800×600 state to 100×50 leaves
the aspect ratio of the camera at `800/600`; it does not become the claimed
`new_width / new_height = 100/50`. -/
theorem C2_counterexample :
    ¬ (sampleState.resize ⟨100, 50⟩).1.camera.aspect = (100 : ℝ) / 50 := by
  have h : (sampleState.resize ⟨100, 50⟩).1.camera = sampleCamera := by
    rw [State.resize_pos_eq sampleState ⟨100, 50⟩ (by decide)]
    rfl
  rw [h]
  show (800 : ℝ) / 600 = (100 : ℝ) / 50 → False
  norm_num

/-- C2 amended: handling a resize event with non-zero width and height
reconfigures the surface — the width/height of the stored configuration and the
stored size are updated and one `configureSurface` is issued — but the
Camera (in particular its aspect ratio) is left unchanged. -/
theorem C2_resize_amended (st : State) (s : PhysicalSize)
    (h : 0 < s.width ∧ 0 < s.height) :
    (st.resize s).1.config.width = s.width
    ∧ (st.resize s).1.config.height = s.height
    ∧ (st.resize s).1.size = s
    ∧ (st.resize s).2 = [Effect.configureSurface (st.resize s).1.config]
    ∧ (st.resize s).1.camera = st.camera
    ∧ (st.resize s).1.camera.aspect = st.camera.aspect := by
  rw [State.resize_pos_eq st s h]
  exact ⟨rfl, rfl, rfl, rfl, rfl, rfl⟩

/-- Witness for C2 (amended) at the concrete initial state and size 100×50. -/
theorem C2_resize_amended_witness :
    (sampleState.resize ⟨100, 50⟩).1.config.width = 100
    ∧ (sampleState.resize ⟨100, 50⟩).1.config.height = 50
    ∧ (sampleState.resize ⟨100, 50⟩).1.size = ⟨100, 50⟩
    ∧ (sampleState.resize ⟨100, 50⟩).2
      = [Effect.configureSurface (sampleState.resize ⟨100, 50⟩).1.config]
    ∧ (sampleState.resize ⟨100, 50⟩).1.camera = sampleState.camera
    ∧ (sampleState.resize ⟨100, 50⟩).1.camera.aspect
      = sampleState.camera.aspect :=
  C2_resize_amended sampleState ⟨100, 50⟩ (by decide)

/-- C3: `reconfigure` with a zero width or height changes nothing — the
state (so in particular the stored size and the stored surface
configuration with its width, height, format and present mode) is returned
unchanged and no surface configuration is issued. -/
theorem C3_resize_zero_noop (st : State) (s : PhysicalSize)
    (h : s.width = 0 ∨ s.height = 0) :
    st.resize s = (st, []) := by
  unfold State.resize
  rw [if_neg]
  rcases h with h | h <;> simp [h]

/-- Witness for C3 at the concrete initial state and size 0×50. -/
theorem C3_resize_zero_noop_witness :
    sampleState.resize ⟨0, 50⟩ = (sampleState, []) :=
  C3_resize_zero_noop sampleState ⟨0, 50⟩ (Or.inl rfl)

/-- C4: `reconfigure` is idempotent — for a non-zero size, a second call
with the same size leaves the state (stored size and surface
configuration) and the emitted surface configuration exactly as the first
call left them. -/
theorem C4_resize_idempotent (st : State) (s : PhysicalSize)
    (h : 0 < s.width ∧ 0 < s.height) :
    ((st.resize s).1.resize s).1 = (st.resize s).1
    ∧ ((st.resize s).1.resize s).2 = (st.resize s).2 := by
  rw [State.resize_pos_eq st s h,
      State.resize_pos_eq _ s h]
  exact ⟨rfl, rfl⟩

/-- Witness for C4 at the concrete initial state and size 100×50. -/
theorem C4_resize_idempotent_witness :
    ((sampleState.resize ⟨100, 50⟩).1.resize ⟨100, 50⟩).1
      = (sampleState.resize ⟨100, 50⟩).1
    ∧ ((sampleState.resize ⟨100, 50⟩).1.resize ⟨100, 50⟩).2
      = (sampleState.resize ⟨100, 50⟩).2 :=
  C4_resize_idempotent sampleState ⟨100, 50⟩ (by decide)

/-- C7: `State::update` first applies the camera controller to the camera,
then recomputes the uniform from the (possibly mutated) camera via
`build_view_projection_matrix`, and uploads it as a single queue write of
the 16-float matrix to the camera buffer at offset 0 — no buffer is
created or recreated, and no other state field changes. -/
theorem C7_update_order_and_frame (st : State) :
    st.update.1.camera = st.camera_controller.update_camera st.camera
    ∧ st.update.1.camera_uniform.view_proj
      = (st.camera_controller.update_camera st.camera).build_view_projection_matrix
    ∧ st.update.2
      = [Effect.writeBuffer BufferId.camera 0
          (matrixToFloats st.update.1.camera_uniform.view_proj)]
    ∧ (matrixToFloats st.update.1.camera_uniform.view_proj).length = 16
    ∧ st.update.1.camera_controller = st.camera_controller
    ∧ st.update.1.config = st.config
    ∧ st.update.1.num_indices = st.num_indices
    ∧ st.update.1.size = st.size :=
  ⟨rfl, rfl, rfl, rfl, rfl, rfl, rfl, rfl⟩

/-- C8: `CameraUniform::new` is the identity matrix (the value the uniform
holds before the first update), and `update_view_proj` replaces the stored
matrix with exactly the view-projection matrix of the camera. -/
theorem C8_camera_uniform :
    CameraUniform.new.view_proj = (1 : Matrix4)
    ∧ ∀ (u : CameraUniform) (c : Camera),
        (u.update_view_proj c).view_proj = c.build_view_projection_matrix :=
  ⟨rfl, fun _ _ => rfl⟩

/-- C9: the mesh constants are fixed — 5 vertices (each a 3-component
position plus 2-component texture coordinate, by the `Vertex` type), the
index list `[0,1,4, 1,2,4, 2,3,4]` of length 9, `num_indices = 9`, and in
every successful render the only draw call is one indexed draw over
`0..num_indices` with the single instance range `0..1`. -/
theorem C9_mesh_constants :
    VERTICES.length = 5
    ∧ INDICES = [0, 1, 4, 1, 2, 4, 2, 3, 4]
    ∧ INDICES.length = 9
    ∧ init_num_indices = 9
    ∧ ∀ st : State,
        ((st.render (Except.ok ())).2.2.filter Effect.isDrawIndexed)
          = [Effect.drawIndexed 0 st.num_indices 0 0 1]
    ∧ sampleState.num_indices = 9 :=
  ⟨rfl, rfl, rfl, rfl, fun _ => ⟨rfl, rfl⟩⟩

/-- C10: when frame acquisition fails, `State::render` returns the error
immediately and atomically — the state is unchanged and the effect trace
is empty (no command encoder, no render pass, no submit, no present). -/
theorem C10_render_error_atomic (st : State) (e : SurfaceError) :
    st.render (Except.error e) = (Except.error e, st, []) :=
  rfl

/-- C5: `build_view_projection_matrix` is exactly the product
`OPENGL_TO_WGPU_MATRIX * perspective * look_at_rh`, and the correction
matrix is a fixed constant (a closed definition, independent of the
camera) that acts on homogeneous coordinates by scaling the depth
component by `0.5` and translating it by `0.5·w`, so that the depth range
`[-1, 1]` (at `w = 1`) is mapped to `[0, 1]`. -/
theorem C5_view_projection_composition (c : Camera) :
    c.build_view_projection_matrix
      = OPENGL_TO_WGPU_MATRIX * perspective c.fovy c.aspect c.znear c.zfar
          * look_at_rh c.eye c.target c.up
    ∧ (∀ x y z w : ℝ,
        OPENGL_TO_WGPU_MATRIX.mulVec ![x, y, z, w]
          = ![x, y, 0.5 * z + 0.5 * w, w])
    ∧ OPENGL_TO_WGPU_MATRIX.mulVec ![0, 0, -1, 1] = ![0, 0, 0, 1]
    ∧ OPENGL_TO_WGPU_MATRIX.mulVec ![0, 0, 1, 1] = ![0, 0, 1, 1] := by
  have hact : ∀ x y z w : ℝ,
      OPENGL_TO_WGPU_MATRIX.mulVec ![x, y, z, w]
        = ![x, y, 0.5 * z + 0.5 * w, w] := by
    intro x y z w
    funext i
    fin_cases i <;>
      simp [OPENGL_TO_WGPU_MATRIX, mat4, Matrix.mulVec, Matrix.dotProduct,
        Fin.sum_univ_four]
  refine ⟨rfl, hact, ?_, ?_⟩
  · rw [hact]
    norm_num
  · rw [hact]
    norm_num

/-- Magnitude of the displacement from `nearCamera` eye to target: `1/10`. -/
theorem nearCamera_forward_mag :
    (Vec3.sub nearCamera.target nearCamera.eye).magnitude = 1 / 10 := by
  unfold Vec3.magnitude
  rw [show (Vec3.sub nearCamera.target nearCamera.eye).dot
        (Vec3.sub nearCamera.target nearCamera.eye) = ((1 : ℝ) / 10) ^ 2 by
      norm_num [Vec3.sub, Vec3.dot, nearCamera]]
  exact Real.sqrt_sq (by norm_num)

/-- C6 counterexample: with only "forward" active, speed `1/5` (the
configured `0.2` of the program) and a camera only `1/10` from its target, one update
leaves the eye where it was (the guard `forward_mag > speed` fails), so
the new distance is `1/10`, not the claimed
`max(old_distance - speed, 0) = 0`. -/
theorem C6_counterexample :
    ¬ Vec3.dist (forwardController.update_camera nearCamera).eye
        nearCamera.target
      = max (Vec3.dist nearCamera.eye nearCamera.target
              - forwardController.speed) 0 := by
  have heye : (forwardController.update_camera nearCamera).eye
      = nearCamera.eye := by
    simp only [CameraController.update_camera, forwardController]
    simp
    intro h
    exact absurd h (by rw [nearCamera_forward_mag]; norm_num)
  have hd0 : Vec3.dist nearCamera.eye nearCamera.target = 1 / 10 := by
    unfold Vec3.dist
    rw [Vec3.magnitude_sub_comm]
    exact nearCamera_forward_mag
  rw [heye, hd0, show forwardController.speed = (1 : ℝ) / 5 from rfl,
      max_eq_right (by norm_num : (1 : ℝ) / 10 - 1 / 5 ≤ 0)]
  norm_num

/-- C6 amended: after one Input-Driven Camera Update with only "forward"
active and a nonnegative speed, if the old distance to the target exceeds
the speed the eye advances so that the new distance is exactly
`old_distance - speed`; otherwise the guard blocks the move and the eye is
unchanged.  In either case the distance to the target stays nonnegative —
the eye is never moved past the target. -/
theorem C6_forward_update_distance (ctrl : CameraController) (cam : Camera)
    (hf : ctrl.is_forward_pressed = true)
    (hb : ctrl.is_backward_pressed = false)
    (hl : ctrl.is_left_pressed = false)
    (hr : ctrl.is_right_pressed = false)
    (hs : 0 ≤ ctrl.speed) :
    (ctrl.speed < Vec3.dist cam.eye cam.target →
      Vec3.dist (ctrl.update_camera cam).eye cam.target
        = Vec3.dist cam.eye cam.target - ctrl.speed)
    ∧ (Vec3.dist cam.eye cam.target ≤ ctrl.speed →
      (ctrl.update_camera cam).eye = cam.eye)
    ∧ 0 ≤ Vec3.dist (ctrl.update_camera cam).eye cam.target := by
  have hdist : Vec3.dist cam.eye cam.target
      = (Vec3.sub cam.target cam.eye).magnitude := by
    unfold Vec3.dist
    exact Vec3.magnitude_sub_comm _ _
  have heye : (ctrl.update_camera cam).eye
      = if (Vec3.sub cam.target cam.eye).magnitude > ctrl.speed then
          Vec3.add cam.eye
            (Vec3.smul ctrl.speed (Vec3.sub cam.target cam.eye).normalize)
        else cam.eye := by
    unfold CameraController.update_camera
    rw [hf, hb, hl, hr]
    simp
  refine ⟨?_, ?_, ?_⟩
  · intro hlt
    rw [hdist] at hlt
    have hmpos : 0 < (Vec3.sub cam.target cam.eye).magnitude :=
      lt_of_le_of_lt hs hlt
    rw [hdist]
    unfold Vec3.dist
    rw [heye, if_pos hlt]
    unfold Vec3.normalize
    rw [Vec3.smul_comp, Vec3.forward_step, Vec3.magnitude_smul]
    have hnp : ctrl.speed * (1 / (Vec3.sub cam.target cam.eye).magnitude) - 1
        ≤ 0 := by
      rw [mul_one_div, sub_nonpos]
      exact div_le_one_of_le₀ hlt.le hmpos.le
    rw [abs_of_nonpos hnp]
    field_simp
  · intro hle
    rw [hdist] at hle
    rw [heye, if_neg (not_lt.mpr hle)]
  · exact Real.sqrt_nonneg _

/-- Witness for C6 (amended): with speed `1/5` and a camera one unit from
its target, one forward update brings the distance down to exactly
`1 - 1/5`. -/
theorem C6_forward_update_distance_witness :
    Vec3.dist (forwardController.update_camera forwardCamera).eye
        forwardCamera.target
      = Vec3.dist forwardCamera.eye forwardCamera.target
          - forwardController.speed := by
  have hd0 : Vec3.dist forwardCamera.eye forwardCamera.target = 1 := by
    unfold Vec3.dist Vec3.magnitude
    rw [show (Vec3.sub forwardCamera.eye forwardCamera.target).dot
          (Vec3.sub forwardCamera.eye forwardCamera.target) = (1 : ℝ) by
        norm_num [Vec3.sub, Vec3.dot, forwardCamera]]
    exact Real.sqrt_one
  exact (C6_forward_update_distance forwardController forwardCamera rfl rfl
      rfl rfl (by norm_num [forwardController])).1
    (by rw [hd0]; norm_num [forwardController])
